import Mathlib

/-!
# Verification of the mbta2rss alert-feed converter

Shallow embedding of `mbta2rss.py`: the two output drivers (Markdown and
RSS), the alert-mapping pipeline `get_alerts`, the stop lister
`get_stoplist`, the query-string builder, ISO-8601 parsing and strftime
date formatting, and the `__main__` dispatch.  Python strings are modelled
as Lean `String`, JSON attribute dictionaries as association lists over a
null-or-string value type, and `print` as appending the line plus `"\n"`
to the accumulated standard-output stream.
-/

namespace Mbta

/-- A JSON value as it appears in the `attributes` dictionaries of the
MBTA API payload: either `null` or a string.  (The fields this program
reads are all strings or null.) -/
inductive JVal where
  | null
  | str (s : String)
  deriving DecidableEq, Repr

/-- An alert record from the API response: `{"id": ..., "attributes": {...}}`.
The two-shape nesting is treated as fixed (spec section 4.2 step 3); the
`attributes` object is kept as a genuine dictionary so that a missing key
is distinguishable from a key mapped to `null`. -/
structure AlertRecord where
  id : String
  attributes : List (String × JVal)
  deriving DecidableEq, Repr

/-- The decoded JSON body of the alerts endpoint: `{"data": [...]}`. -/
structure ApiResponse where
  data : List AlertRecord
  deriving DecidableEq, Repr

/-- Python dictionary subscript `d[k]`: returns the value, or raises
`KeyError` when the key is absent. -/
def dictGet (d : List (String × JVal)) (k : String) : Except String JVal :=
  match d.find? (fun p => p.1 == k) with
  | some p => .ok p.2
  | none => .error ("KeyError: " ++ k)

/-- Using a JSON value where Python needs a `str` (string concatenation,
`html.escape`): `None` would raise `TypeError` there. -/
def jstr : JVal → Except String String
  | .null => .error "TypeError: expected str"
  | .str s => .ok s

/-- Python's `print(line)`: the text written to standard output. -/
def pyPrint (line : String) : String := line ++ "\n"

/-! ## Character-wise string replacement

Python `str.replace` with a single-character needle replaces each
occurrence of that character independently, which is exactly a
character-wise flat map. -/

/-- `s.replace(old, new)` for a single-character `old`, as used at
mbta2rss.py line 39 and inside CPython's `html.escape`. -/
def pyReplaceChar (s : List Char) (old : Char) (new : List Char) : List Char :=
  s.flatMap (fun c => if c = old then new else [c])

/-- `desc.replace('\n', '\n\n')` from `MarkdownAlertDriver.print_item`
(mbta2rss.py line 39). -/
def replaceNewlines (s : String) : String :=
  String.mk (pyReplaceChar s.data '\n' ['\n', '\n'])

/-! ## CPython's `html.escape`

CPython's `html.escape(s, quote=True)` performs, in order,
`s.replace("&", "&amp;")`, `.replace("<", "&lt;")`, `.replace(">", "&gt;")`,
`.replace('"', "&quot;")`, `.replace("'", "&#x27;")`; every needle is a
single character, so each stage is `pyReplaceChar`. -/

/-- `html.escape` with the default `quote=True`, as called in
`RSSAlertDriver.print_item` (mbta2rss.py lines 70 and 73). -/
def html_escape (s : String) : String :=
  let l := s.data
  let l := pyReplaceChar l '&' "&amp;".data
  let l := pyReplaceChar l '<' "&lt;".data
  let l := pyReplaceChar l '>' "&gt;".data
  let l := pyReplaceChar l '"' "&quot;".data
  let l := pyReplaceChar l '\'' "&#x27;".data
  String.mk l

/-! ## The two output drivers -/

/-- `MarkdownAlertDriver`: fields captured by `__init__`
(mbta2rss.py lines 24-29). -/
structure MarkdownAlertDriver where
  title : String
  desc : String
  lang : String
  url : String
  deriving DecidableEq, Repr

/-- `MarkdownAlertDriver.print_start` (mbta2rss.py lines 32-34).  The
source prints the bare names `title` and `desc`, which resolve to the
module-level globals set in the `__main__` block, not to `self.title` /
`self.desc`; the globals are therefore explicit arguments here and the
captured `self` fields are (faithfully) unused. -/
def MarkdownAlertDriver.print_start (_self : MarkdownAlertDriver)
    (g_title g_desc : String) : String :=
  pyPrint ("# " ++ g_title) ++ pyPrint g_desc

/-- `MarkdownAlertDriver.print_item` (mbta2rss.py lines 37-39). -/
def MarkdownAlertDriver.print_item (_self : MarkdownAlertDriver)
    (header long_header desc _effect date : String)
    (_categories : List String) (_guid : String) : String :=
  pyPrint ("## " ++ header ++ " (added " ++ date ++ ")") ++
  pyPrint (long_header ++ "\n\n" ++ replaceNewlines desc ++ "\n\n")

/-- `MarkdownAlertDriver.print_end` (mbta2rss.py lines 42-43): `pass`. -/
def MarkdownAlertDriver.print_end (_self : MarkdownAlertDriver) : String := ""

/-- `RSSAlertDriver`: fields captured by `__init__`
(mbta2rss.py lines 50-55). -/
structure RSSAlertDriver where
  title : String
  desc : String
  lang : String
  url : String
  deriving DecidableEq, Repr

/-- `RSSAlertDriver.print_start` (mbta2rss.py lines 58-65). -/
def RSSAlertDriver.print_start (self : RSSAlertDriver) : String :=
  pyPrint "<?xml version=\"1.0\" encoding=\"utf-8\"?>" ++
  pyPrint "<rss version=\"2.0\" xmlns:atom=\"http://www.w3.org/2005/Atom\">" ++
  pyPrint "<channel>" ++
  pyPrint ("<title>" ++ self.title ++ "</title>") ++
  pyPrint ("<description>" ++ self.desc ++ "</description>") ++
  pyPrint ("<language>" ++ self.lang ++ "</language>") ++
  pyPrint ("<link>" ++ self.url ++ "</link>")

/-- `RSSAlertDriver.print_item` (mbta2rss.py lines 68-79). -/
def RSSAlertDriver.print_item (_self : RSSAlertDriver)
    (header long_header desc _effect date : String)
    (categories : List String) (guid : String) : String :=
  let content := "<pre>" ++ html_escape long_header ++ "\n\n" ++
    html_escape desc ++ "</pre>"
  pyPrint "<item>" ++
  pyPrint ("<title>" ++ html_escape header ++ "</title>") ++
  pyPrint ("<description>" ++ content ++ "</description>") ++
  pyPrint ("<pubDate>" ++ date ++ "</pubDate>") ++
  pyPrint ("<guid>" ++ guid ++ "</guid>") ++
  String.join (categories.map (fun category =>
    pyPrint ("<category>" ++ category ++ "</category>"))) ++
  pyPrint "</item>"

/-- `RSSAlertDriver.print_end` (mbta2rss.py lines 82-84). -/
def RSSAlertDriver.print_end (_self : RSSAlertDriver) : String :=
  pyPrint "</channel>" ++ pyPrint "</rss>"

/-! ## The polymorphic driver interface

`get_alerts` and `get_stoplist` receive whichever driver `__main__`
selected; the shared capability set {start, item, end} is a record of the
three operations, each returning the text it writes. -/

/-- The argument bundle of one `print_item` call. -/
structure ItemArgs where
  header : String
  long_header : String
  desc : String
  effect : String
  date : String
  categories : List String
  guid : String
  deriving DecidableEq, Repr

/-- The driver capability set {start, item, end}. -/
structure Driver where
  print_start : String
  print_item : ItemArgs → String
  print_end : String

/-- The Markdown driver as seen by the mapper.  `print_start` needs the
module globals `title` and `desc` (see
`MarkdownAlertDriver.print_start`). -/
def Driver.ofMarkdown (self : MarkdownAlertDriver) (g_title g_desc : String) :
    Driver where
  print_start := self.print_start g_title g_desc
  print_item := fun a =>
    self.print_item a.header a.long_header a.desc a.effect a.date
      a.categories a.guid
  print_end := self.print_end

/-- The RSS driver as seen by the mapper. -/
def Driver.ofRSS (self : RSSAlertDriver) : Driver where
  print_start := self.print_start
  print_item := fun a =>
    self.print_item a.header a.long_header a.desc a.effect a.date
      a.categories a.guid
  print_end := self.print_end

/-! ## Query-string construction (mbta2rss.py lines 94-108) -/

/-- The `req_str` accumulation of `get_alerts` (mbta2rss.py lines 94-108):
start from `"alerts"` with separator `'?'`, append each present parameter
in the order datetime, api_key, route, switching the separator to `'&'`
after the first append.  `none` models Python `None`. -/
def build_req_str (time api_key route : Option String) : String :=
  let req_str := "alerts"
  let character := "?"
  let (req_str, character) :=
    match time with
    | some t => (req_str ++ character ++ "filter[datetime]=" ++ t, "&")
    | none => (req_str, character)
  let (req_str, character) :=
    match api_key with
    | some k => (req_str ++ character ++ "api_key=" ++ k, "&")
    | none => (req_str, character)
  let (req_str, _) :=
    match route with
    | some r => (req_str ++ character ++ "filter[route]=" ++ r, "&")
    | none => (req_str, character)
  req_str

/-- The optional query parameters that are present, in the fixed order
datetime, api_key, route (the declarative reading of the accumulation,
spec section 4.2 step 2 / design note on separator state). -/
def presentParams (time api_key route : Option String) : List String :=
  (time.map (fun t => "filter[datetime]=" ++ t)).toList ++
  (api_key.map (fun k => "api_key=" ++ k)).toList ++
  (route.map (fun r => "filter[route]=" ++ r)).toList

/-- Parameters joined with `'&'`. -/
def joinParams : List String → String
  | [] => ""
  | [p] => p
  | p :: rest => p ++ "&" ++ joinParams rest

/-- Joining a parameter list onto the `alerts` resource: `'?'` before the
first parameter, `'&'` between subsequent ones. -/
def queryOfParams (params : List String) : String :=
  match params with
  | [] => "alerts"
  | _ => "alerts?" ++ joinParams params

/-! ## `datetime.fromisoformat` and `strftime`

`get_alerts` (mbta2rss.py lines 122-123) parses `attributes['created_at']`
with `datetime.fromisoformat` and renders it with
`strftime('%m-%d-%Y %I:%M %p')`.  The embedding follows CPython's pure
Python `_pydatetime` implementation of `fromisoformat` (3.7-3.10):
`HH[:MM[:SS[.fff[fff]]]]` time components, an optional `+HH:MM`-style
offset located by the first `-`/`+` in the time part, and the range
validation done by the `datetime` constructor. -/

/-- A `datetime` value: the wall-clock fields plus an optional fixed UTC
offset in seconds (`strftime` renders the wall-clock fields; the offset
does not influence the format used here). -/
structure PyDatetime where
  year : Nat
  month : Nat
  day : Nat
  hour : Nat
  minute : Nat
  second : Nat
  microsecond : Nat
  tzOffsetSeconds : Option Int
  deriving DecidableEq, Repr

/-- The numeric value of a decimal digit; `int()` rejects non-digits. -/
def digitVal (c : Char) : Except String Nat :=
  if c.isDigit then .ok (c.toNat - '0'.toNat)
  else .error "ValueError: invalid literal for int"

/-- `int` of a two-digit field. -/
def parse2 (a b : Char) : Except String Nat := do
  pure ((← digitVal a) * 10 + (← digitVal b))

/-- `int` of a four-digit field. -/
def parse4 (a b c d : Char) : Except String Nat := do
  pure (((← digitVal a) * 10 + (← digitVal b)) * 100 +
    (← digitVal c) * 10 + (← digitVal d))

/-- `int` of an all-digit run (the fractional-second field). -/
def parseDigits (l : List Char) : Except String Nat :=
  l.foldlM (fun acc c => do pure (acc * 10 + (← digitVal c))) 0

/-- `_parse_isoformat_date`: the `YYYY-MM-DD` shape (the CPython helper
documents that it is only called on a string of length exactly 10). -/
def parse_isoformat_date (l : List Char) : Except String (Nat × Nat × Nat) :=
  match l with
  | [y1, y2, y3, y4, '-', m1, m2, '-', d1, d2] => do
    pure (← parse4 y1 y2 y3 y4, ← parse2 m1 m2, ← parse2 d1 d2)
  | _ => .error "ValueError: Invalid isoformat string"

/-- `_parse_hh_mm_ss_ff`: `HH[:MM[:SS[.fff[fff]]]]`, returning
(hour, minute, second, microsecond); a 3-digit fraction is scaled by
1000. -/
def parse_hh_mm_ss_ff (l : List Char) : Except String (Nat × Nat × Nat × Nat) :=
  match l with
  | [h1, h2] => do pure (← parse2 h1 h2, 0, 0, 0)
  | [h1, h2, ':', m1, m2] => do pure (← parse2 h1 h2, ← parse2 m1 m2, 0, 0)
  | [h1, h2, ':', m1, m2, ':', s1, s2] => do
    pure (← parse2 h1 h2, ← parse2 m1 m2, ← parse2 s1 s2, 0)
  | h1 :: h2 :: ':' :: m1 :: m2 :: ':' :: s1 :: s2 :: '.' :: frac => do
    let hh ← parse2 h1 h2
    let mm ← parse2 m1 m2
    let ss ← parse2 s1 s2
    if frac.length = 3 then
      pure (hh, mm, ss, (← parseDigits frac) * 1000)
    else if frac.length = 6 then
      pure (hh, mm, ss, ← parseDigits frac)
    else .error "ValueError: Invalid microsecond component"
  | _ => .error "ValueError: Incomplete time component"

/-- `_parse_isoformat_time`: the time-of-day part plus the optional UTC
offset, found as `tstr.find('-') + 1 or tstr.find('+') + 1`. -/
def parse_isoformat_time (l : List Char) :
    Except String (Nat × Nat × Nat × Nat × Option Int) := do
  if l.length < 2 then .error "ValueError: Isoformat time too short" else
  let tz_pos : Nat :=
    match l.findIdx? (· = '-') with
    | some i => i + 1
    | none =>
      match l.findIdx? (· = '+') with
      | some i => i + 1
      | none => 0
  let timestr := if tz_pos > 0 then l.take (tz_pos - 1) else l
  let (hh, mm, ss, us) ← parse_hh_mm_ss_ff timestr
  if tz_pos > 0 then
    let tzstr := l.drop tz_pos
    if tzstr.length = 5 ∨ tzstr.length = 8 ∨ tzstr.length = 15 then do
      let (tzh, tzm, tzs, _) ← parse_hh_mm_ss_ff tzstr
      let sign : Int := if l.get? (tz_pos - 1) = some '-' then -1 else 1
      pure (hh, mm, ss, us, some (sign * (tzh * 3600 + tzm * 60 + tzs)))
    else .error "ValueError: Malformed time zone string"
  else
    pure (hh, mm, ss, us, none)

/-- Days in a month, as validated by the `datetime` constructor. -/
def daysInMonth (y m : Nat) : Nat :=
  if m = 2 then
    if y % 4 = 0 && (y % 100 ≠ 0 || y % 400 = 0) then 29 else 28
  else if m = 4 ∨ m = 6 ∨ m = 9 ∨ m = 11 then 30
  else 31

/-- The range validation done by the `datetime` constructor. -/
def datetime_ctor (year month day hour minute second microsecond : Nat)
    (tz : Option Int) : Except String PyDatetime :=
  if 1 ≤ year ∧ year ≤ 9999 ∧ 1 ≤ month ∧ month ≤ 12 ∧
      1 ≤ day ∧ day ≤ daysInMonth year month ∧
      hour ≤ 23 ∧ minute ≤ 59 ∧ second ≤ 59 then
    pure ⟨year, month, day, hour, minute, second, microsecond, tz⟩
  else .error "ValueError: field out of range"

/-- `datetime.fromisoformat` (CPython `_pydatetime`): the first 10
characters are the date, everything from index 11 on is the time (the
separator character at index 10 is skipped unvalidated), and the
`datetime` constructor validates the field ranges. -/
def fromisoformat (s : String) : Except String PyDatetime := do
  let l := s.data
  let dstr := l.take 10
  let tstr := l.drop 11
  let (year, month, day) ← parse_isoformat_date dstr
  let (hour, minute, second, us, tz) ←
    if tstr.isEmpty then pure (0, 0, 0, 0, (none : Option Int))
    else parse_isoformat_time tstr
  datetime_ctor year month day hour minute second us tz

/-- `%m`/`%d`/`%I`/`%M`: a number zero-padded to two digits. -/
def pad2 (n : Nat) : String :=
  if n < 10 then "0" ++ Nat.repr n else Nat.repr n

/-- `%I`: the hour on the 12-hour clock (0 and 12 both render as 12). -/
def hour12 (h : Nat) : Nat :=
  if h % 12 = 0 then 12 else h % 12

/-- `%p` in the C locale. -/
def meridiem (h : Nat) : String :=
  if h < 12 then "AM" else "PM"

/-- `dt.strftime('%m-%d-%Y %I:%M %p')` (mbta2rss.py line 123). -/
def strftime_mdY_IM_p (dt : PyDatetime) : String :=
  pad2 dt.month ++ "-" ++ pad2 dt.day ++ "-" ++ Nat.repr dt.year ++ " " ++
  pad2 (hour12 dt.hour) ++ ":" ++ pad2 dt.minute ++ " " ++ meridiem dt.hour

/-! ## The alert mapper: `get_alerts` (mbta2rss.py lines 91-134) -/

/-- The loop body of `get_alerts` (lines 113-132): project one alert
record into the arguments of the `print_item` call, or fail with the
exception Python would raise (KeyError on a missing key, ValueError on an
unparsable date). -/
def mapAlert (alert : AlertRecord) : Except String ItemArgs := do
  let attributes := alert.attributes
  let guid := alert.id
  let header ← jstr (← dictGet attributes "short_header")
  let long_header ← jstr (← dictGet attributes "header")
  let dt ← fromisoformat (← jstr (← dictGet attributes "created_at"))
  let date := strftime_mdY_IM_p dt
  let descV ← dictGet attributes "description"
  let desc := match descV with | .null => "" | .str s => s
  let effV ← dictGet attributes "effect"
  let effect := match effV with | .null => "" | .str s => "Effect: " ++ s
  pure ⟨header, long_header, desc, effect, date, [], guid⟩

instance : Inhabited ItemArgs := ⟨⟨"", "", "", "", "", [], ""⟩⟩

/-- One abstract driver invocation. -/
inductive DriverCall where
  | start
  | item (args : ItemArgs)
  | stop
  deriving DecidableEq, Repr

/-- The `for alert in alerts['data']` loop followed by `print_end`: the
driver calls issued for the record list, paired with the exception (if
any) that aborted the loop. -/
def goAlerts : List AlertRecord → List DriverCall × Option String
  | [] => ([DriverCall.stop], none)
  | a :: rest =>
    match mapAlert a with
    | .ok args =>
      let r := goAlerts rest
      (DriverCall.item args :: r.1, r.2)
    | .error e => ([], some e)

/-- The full sequence of driver calls `get_alerts` makes for a decoded
response body: `print_start`, one `print_item` per record in response
order, `print_end` (the last only if no record raised). -/
def getAlertsTrace (data : List AlertRecord) : List DriverCall × Option String :=
  let r := goAlerts data
  (DriverCall.start :: r.1, r.2)

/-- The text a driver writes for one abstract call. -/
def renderCall (driver : Driver) : DriverCall → String
  | .start => driver.print_start
  | .item a => driver.print_item a
  | .stop => driver.print_end

/-- The standard-output text of a call sequence. -/
def renderTrace (driver : Driver) (calls : List DriverCall) : String :=
  String.join (calls.map (renderCall driver))

/-- Result of one `get_alerts` run: the text written to standard output,
the request string passed to `retrieve_from_api`, and the uncaught
exception if one aborted the loop. -/
structure GetAlertsRun where
  out : String
  request : String
  err : Option String
  deriving Repr

/-- `get_alerts(driver, route, time)` (mbta2rss.py lines 91-134), with the
module global `API_KEY` and the HTTP fetch as explicit parameters. -/
def get_alerts (driver : Driver) (API_KEY : Option String)
    (route time : Option String) (api : String → ApiResponse) : GetAlertsRun :=
  let req_str := build_req_str time API_KEY route
  let alerts := api req_str
  let r := getAlertsTrace alerts.data
  { out := renderTrace driver r.1, request := req_str, err := r.2 }

/-! ## The stop lister: `get_stoplist` (mbta2rss.py lines 140-154) -/

/-- A stop record; `stop['attributes']['name']` with the two-shape
nesting treated as fixed. -/
structure Stop where
  name : String
  deriving DecidableEq, Repr

/-- Result of one `get_stoplist` run: standard-output text, the API
requests issued, and the process exit code. -/
structure StopRun where
  out : String
  requests : List String
  code : Nat
  deriving DecidableEq, Repr

/-- `get_stoplist(routes)` (mbta2rss.py lines 140-154), with the globals
`driver` and `API_KEY` and the HTTP fetch as explicit parameters.  A
missing route list prints a message and calls `exit(1)` before any
request or driver output. -/
def get_stoplist (driver : Driver) (API_KEY : Option String)
    (routes : Option String) (fetch : String → List Stop) : StopRun :=
  match routes with
  | none =>
    { out := pyPrint "route list must be provided when listing stops"
      requests := []
      code := 1 }
  | some rs =>
    let perRoute := (rs.splitOn ",").map (fun route =>
      let reqstr := "stops?filter[route]=" ++ route
      let reqstr :=
        match API_KEY with
        | some k => reqstr ++ "&api_key=" ++ k
        | none => reqstr
      let stoplist := fetch reqstr
      (pyPrint ("## Route: " ++ route) ++
        String.join (stoplist.map (fun stop => pyPrint ("* " ++ stop.name))),
        reqstr))
    { out := driver.print_start ++ String.join (perRoute.map (·.1)) ++
        driver.print_end
      requests := perRoute.map (·.2)
      code := 0 }

/-! ## The `__main__` block (mbta2rss.py lines 156-209) -/

def DEFAULT_TITLE : String := "Unofficial MBTA Alert Feed"
def DEFAULT_DESC : String :=
  "An unofficial feed for public transit alerts in the Boston area."
def DEFAULT_LANG : String := "en_us"
def DEFAULT_URL : String := "https://github.com/darklands1/mbta-rss"
def DEFAULT_DATATYPE : String := "alerts"

/-- The parsed command-line arguments (each `none` when the flag is
absent, as `argparse` yields `None`). -/
structure Args where
  datatype : Option String
  output : Option String
  routes : Option String
  time : Option String
  title : Option String
  description : Option String
  url : Option String
  deriving DecidableEq, Repr

/-- Outcome of one process run: the standard-output text and the exit
code (0 for normal completion and for the two `exit(0)` diagnostics, 1
for `exit(1)` and for an uncaught exception). -/
structure MainOutcome where
  out : String
  code : Nat
  deriving DecidableEq, Repr

/-- The `__main__` block: apply argument defaults, select the output
driver (`rss` when `-o` is absent or `rss`, `md` for `md`, otherwise a
diagnostic and `exit(0)`), then dispatch on the data type (`alerts`,
`stops`, otherwise a diagnostic and `exit(0)`).  `API_KEY` is
`os.getenv("API_KEY")`. -/
def mainRun (args : Args) (API_KEY : Option String)
    (api : String → ApiResponse) (stopsFetch : String → List Stop) :
    MainOutcome :=
  let title := args.title.getD DEFAULT_TITLE
  let desc := args.description.getD DEFAULT_DESC
  let url := args.url.getD DEFAULT_URL
  let datatype := args.datatype.getD DEFAULT_DATATYPE
  let outfmt := args.output
  let driverSel : Option Driver :=
    if outfmt = none ∨ outfmt = some "rss" then
      some (Driver.ofRSS ⟨title, desc, DEFAULT_LANG, url⟩)
    else if outfmt = some "md" then
      some (Driver.ofMarkdown ⟨title, desc, DEFAULT_LANG, url⟩ title desc)
    else none
  match driverSel with
  | none => { out := pyPrint "No such output driver.", code := 0 }
  | some driver =>
    if datatype = "alerts" then
      let r := get_alerts driver API_KEY args.routes args.time api
      { out := r.out, code := match r.err with | none => 0 | some _ => 1 }
    else if datatype = "stops" then
      let s := get_stoplist driver API_KEY args.routes stopsFetch
      { out := s.out, code := s.code }
    else { out := pyPrint "No such data type.", code := 0 }

/-! # Claim theorems -/

/-- C1: For every call to the Markdown driver's `print_item` with header
`h`, long header `lh`, description `d` and date `t`, the emitted text is
the level-2 heading `"## " ++ h ++ " (added " ++ t ++ ")"` on its own
line, followed by `lh`, a blank line, then `d` with every internal
newline doubled, followed by two trailing blank lines; in particular the
description `"a\nb"` renders as `"a\n\nb"`. -/
theorem C1_markdown_print_item_format (self : MarkdownAlertDriver)
    (header long_header desc effect date : String)
    (categories : List String) (guid : String) :
    self.print_item header long_header desc effect date categories guid =
      "## " ++ header ++ " (added " ++ date ++ ")" ++ "\n" ++
      long_header ++ "\n\n" ++ replaceNewlines desc ++ "\n\n" ++ "\n" ∧
    replaceNewlines "a\nb" = "a\n\nb" := by
  constructor
  · simp [MarkdownAlertDriver.print_item, pyPrint, String.append_assoc]
  · decide

/-- C3: The alert query string appends, in the fixed order and each only
if present, `filter[datetime]`, `api_key`, `filter[route]`, the first
present parameter after `'?'` and each later one after `'&'`; this equals
joining the present parameters with `'&'` behind `"alerts?"` (or bare
`"alerts"` when none is present), and the two concrete examples of the
spec hold. -/
theorem C3_build_req_str_query (time api_key route : Option String) :
    build_req_str time api_key route =
      queryOfParams (presentParams time api_key route) ∧
    build_req_str none none (some "Red") = "alerts?filter[route]=Red" ∧
    build_req_str (some "2021-01-01") (some "k") none =
      "alerts?filter[datetime]=2021-01-01&api_key=k" := by
  refine ⟨?_, by decide, by decide⟩
  cases time <;> cases api_key <;> cases route <;>
    simp [build_req_str, presentParams, queryOfParams, joinParams,
      ← String.append_assoc]

/-- C7 (against the claim): `MarkdownAlertDriver.print_start` prints the
module globals `title` and `desc`, not the constructor-captured
`self.title`/`self.desc`, so two Markdown drivers constructed with
different titles emit the same preamble whenever the globals agree; the
RSS driver, by contrast, does use its captured fields. -/
theorem C7_markdown_print_start_ignores_captured_fields :
    (MarkdownAlertDriver.mk "A" "descA" "en_us" "uA").print_start "G" "GD" =
      "# G" ++ "\n" ++ "GD" ++ "\n" ∧
    (MarkdownAlertDriver.mk "B" "descB" "en_us" "uB").print_start "G" "GD" =
      "# G" ++ "\n" ++ "GD" ++ "\n" ∧
    ("A" : String) ≠ "B" ∧
    (RSSAlertDriver.mk "A" "d" "l" "u").print_start ≠
      (RSSAlertDriver.mk "B" "d" "l" "u").print_start := by
  refine ⟨by decide, by decide, by decide, by decide⟩

/-- C9: When the stop-listing operation is invoked with `routes = None`,
it prints the user-facing message and exits (status 1) before issuing any
API request and before any feed output. -/
theorem C9_get_stoplist_missing_routes (driver : Driver)
    (API_KEY : Option String) (fetch : String → List Stop) :
    get_stoplist driver API_KEY none fetch =
      { out := "route list must be provided when listing stops" ++ "\n"
        requests := []
        code := 1 } := rfl

/-! ## Shared helper lemmas and sample records -/

/-- The `print_item` call a successfully mapped record produces. -/
def itemOf (a : AlertRecord) : DriverCall :=
  DriverCall.item ((mapAlert a).toOption.getD default)

theorem daysInMonth_le_31 (y m : Nat) : daysInMonth y m ≤ 31 := by
  unfold daysInMonth
  repeat' split
  all_goals omega

theorem datetime_ctor_ok {y m d hh mm ss us : Nat} {tz : Option Int}
    {dt : PyDatetime} (h : datetime_ctor y m d hh mm ss us tz = .ok dt) :
    dt = ⟨y, m, d, hh, mm, ss, us, tz⟩ ∧ 1 ≤ m ∧ m ≤ 12 ∧
      1 ≤ d ∧ d ≤ daysInMonth y m ∧ hh ≤ 23 ∧ mm ≤ 59 := by
  unfold datetime_ctor at h
  split at h
  · rename_i hcond
    simp only [pure, Except.pure, Except.ok.injEq] at h
    obtain ⟨-, -, h3, h4, h5, h6, h7, h8, -⟩ := hcond
    exact ⟨h.symm, h3, h4, h5, h6, h7, h8⟩
  · exact Except.noConfusion h

theorem fromisoformat_ranges {s : String} {dt : PyDatetime}
    (h : fromisoformat s = .ok dt) :
    1 ≤ dt.month ∧ dt.month ≤ 12 ∧ 1 ≤ dt.day ∧ dt.day ≤ 31 ∧
      dt.hour ≤ 23 ∧ dt.minute ≤ 59 := by
  simp only [fromisoformat, bind, Except.bind, pure, Except.pure] at h
  split at h
  · exact Except.noConfusion h
  · split at h
    · obtain ⟨hdt, h3, h4, h5, h6, h7, h8⟩ := datetime_ctor_ok h
      subst hdt
      exact ⟨h3, h4, h5, le_trans h6 (daysInMonth_le_31 _ _), h7, h8⟩
    · split at h
      · exact Except.noConfusion h
      · obtain ⟨hdt, h3, h4, h5, h6, h7, h8⟩ := datetime_ctor_ok h
        subst hdt
        exact ⟨h3, h4, h5, le_trans h6 (daysInMonth_le_31 _ _), h7, h8⟩

theorem except_bind_eq_ok {α β : Type} {x : Except String α}
    {f : α → Except String β} {b : β} :
    (x >>= f) = .ok b ↔ ∃ a, x = .ok a ∧ f a = .ok b := by
  cases x <;> simp [bind, Except.bind]

theorem except_map_eq_ok {α β : Type} {x : Except String α} {f : α → β}
    {b : β} :
    (f <$> x) = .ok b ↔ ∃ a, x = .ok a ∧ f a = b := by
  cases x <;> simp [Functor.map, Except.map]

theorem except_isOk_exists {α : Type} {x : Except String α}
    (h : x.isOk = true) : ∃ a, x = .ok a := by
  cases x with
  | error e => simp [Except.isOk, Except.toBool] at h
  | ok a => exact ⟨a, rfl⟩

theorem jstr_eq_ok {v : JVal} {s : String} : jstr v = .ok s ↔ v = .str s := by
  cases v <;> simp [jstr]

/-- Inversion of a successful `mapAlert`: the six lookups it performed
and the exact argument bundle it produced. -/
theorem mapAlert_ok_inv {r : AlertRecord} {args : ItemArgs}
    (h : mapAlert r = .ok args) :
    ∃ sh lh ca dt descV effV,
      dictGet r.attributes "short_header" = .ok (.str sh) ∧
      dictGet r.attributes "header" = .ok (.str lh) ∧
      dictGet r.attributes "created_at" = .ok (.str ca) ∧
      fromisoformat ca = .ok dt ∧
      dictGet r.attributes "description" = .ok descV ∧
      dictGet r.attributes "effect" = .ok effV ∧
      args = ⟨sh, lh,
        (match descV with | .null => "" | .str s => s),
        (match effV with | .null => "" | .str s => "Effect: " ++ s),
        strftime_mdY_IM_p dt, [], r.id⟩ := by
  simp only [mapAlert, except_bind_eq_ok, except_map_eq_ok, jstr_eq_ok, pure,
    Except.pure, Except.ok.injEq] at h
  obtain ⟨v1, h1, sh, hv1, v2, h2, lh, hv2, v3, h3, ca, hv3, dt, h4, descV,
    h5, effV, h6, hargs⟩ := h
  subst hv1; subst hv2; subst hv3
  exact ⟨sh, lh, ca, dt, descV, effV, h1, h2, h3, h4, h5, h6, hargs.symm⟩

theorem goAlerts_all_ok (data : List AlertRecord)
    (hall : ∀ a ∈ data, (mapAlert a).isOk = true) :
    goAlerts data = (data.map itemOf ++ [DriverCall.stop], none) := by
  induction data with
  | nil => rfl
  | cons a rest ih =>
    obtain ⟨args, ha⟩ : ∃ args, mapAlert a = .ok args := by
      cases hma : mapAlert a with
      | error e =>
        have := hall a (List.mem_cons_self a rest)
        rw [hma] at this
        cases this
      | ok args => exact ⟨args, rfl⟩
    have ih' := ih (fun b hb => hall b (List.mem_cons_of_mem a hb))
    simp [goAlerts, ha, ih', itemOf, Except.toOption]

/-- A record whose optional fields are explicit nulls. -/
def sampleRecordNulls : AlertRecord :=
  ⟨"alert1",
    [("short_header", .str "Shuttle"),
     ("header", .str "Shuttle buses replace Red Line service"),
     ("created_at", .str "2021-03-05T14:30:00-05:00"),
     ("description", .null),
     ("effect", .null)]⟩

/-- A record with all optional fields populated. -/
def sampleRecordFull : AlertRecord :=
  ⟨"alert2",
    [("short_header", .str "Delay"),
     ("header", .str "Delays on the Orange Line"),
     ("created_at", .str "2020-12-31T23:59:00-05:00"),
     ("description", .str "Expect residual delays."),
     ("effect", .str "DELAY")]⟩

/-- A record whose attributes dictionary lacks the `description` key. -/
def sampleRecordNoDescKey : AlertRecord :=
  ⟨"alert3",
    [("short_header", .str "Stop move"),
     ("header", .str "A bus stop has moved"),
     ("created_at", .str "2021-07-01T08:00:00-04:00"),
     ("effect", .str "STOP_MOVE")]⟩

/-- C8: For every unknown output-format or data-type selector, the
program prints a single diagnostic line, produces no feed content on
standard output, and exits with status 0. -/
theorem C8_unknown_selector_diagnostics (args : Args) (key : Option String)
    (api : String → ApiResponse) (fetch : String → List Stop) :
    (∀ s, args.output = some s → s ≠ "rss" → s ≠ "md" →
      mainRun args key api fetch =
        { out := "No such output driver." ++ "\n", code := 0 }) ∧
    (∀ d, args.datatype = some d → d ≠ "alerts" → d ≠ "stops" →
      (args.output = none ∨ args.output = some "rss" ∨ args.output = some "md") →
      mainRun args key api fetch =
        { out := "No such data type." ++ "\n", code := 0 }) := by
  constructor
  · intro s hs h1 h2
    simp [mainRun, hs, h1, h2, pyPrint]
  · intro d hd h1 h2 hout
    rcases hout with h | h | h <;>
      simp [mainRun, hd, h1, h2, h, pyPrint, Option.getD]

/-- Witness for C8 at `--output xyz` and `--datatype bogus`. -/
theorem C8_witness :
    mainRun ⟨none, some "xyz", none, none, none, none, none⟩ none
        (fun _ => ⟨[]⟩) (fun _ => []) =
      { out := "No such output driver." ++ "\n", code := 0 } ∧
    mainRun ⟨some "bogus", none, none, none, none, none, none⟩ none
        (fun _ => ⟨[]⟩) (fun _ => []) =
      { out := "No such data type." ++ "\n", code := 0 } :=
  ⟨(C8_unknown_selector_diagnostics ⟨none, some "xyz", none, none, none, none,
      none⟩ none (fun _ => ⟨[]⟩) (fun _ => [])).1 "xyz" rfl
      (by decide) (by decide),
   (C8_unknown_selector_diagnostics ⟨some "bogus", none, none, none, none,
      none, none⟩ none (fun _ => ⟨[]⟩) (fun _ => [])).2 "bogus" rfl
      (by decide) (by decide) (Or.inl rfl)⟩

/-- C6: When every record of the response maps successfully, the driver
calls of `get_alerts` are exactly `print_start`, then one `print_item`
per record in response order (no resorting, no deduplication), then
`print_end`; the first and last calls occur exactly once. -/
theorem C6_driver_call_order (data : List AlertRecord)
    (hall : ∀ a ∈ data, (mapAlert a).isOk = true) :
    getAlertsTrace data =
      (DriverCall.start :: data.map itemOf ++ [DriverCall.stop], none) ∧
    (getAlertsTrace data).1.count DriverCall.start = 1 ∧
    (getAlertsTrace data).1.count DriverCall.stop = 1 := by
  have hgo := goAlerts_all_ok data hall
  have hmain : getAlertsTrace data =
      (DriverCall.start :: data.map itemOf ++ [DriverCall.stop], none) := by
    simp [getAlertsTrace, hgo]
  refine ⟨hmain, ?_, ?_⟩ <;> rw [hmain] <;>
    induction data with
    | nil => decide
    | cons a rest ih =>
      simpa [itemOf, List.count_cons] using
        ih (fun b hb => hall b (List.mem_cons_of_mem a hb))
          (goAlerts_all_ok rest (fun b hb => hall b (List.mem_cons_of_mem a hb)))
          (by simp [getAlertsTrace, goAlerts_all_ok rest
            (fun b hb => hall b (List.mem_cons_of_mem a hb))])

/-- Witness for C6 on a two-record response. -/
theorem C6_witness :
    (∀ a ∈ [sampleRecordNulls, sampleRecordFull], (mapAlert a).isOk = true) ∧
    getAlertsTrace [sampleRecordNulls, sampleRecordFull] =
      (DriverCall.start ::
        [sampleRecordNulls, sampleRecordFull].map itemOf ++
        [DriverCall.stop], none) ∧
    (getAlertsTrace [sampleRecordNulls, sampleRecordFull]).1.count
      DriverCall.start = 1 ∧
    (getAlertsTrace [sampleRecordNulls, sampleRecordFull]).1.count
      DriverCall.stop = 1 :=
  ⟨by decide, C6_driver_call_order [sampleRecordNulls, sampleRecordFull]
    (by decide)⟩

theorem goAlerts_error (pre : List AlertRecord) (r : AlertRecord)
    (post : List AlertRecord) (e : String)
    (hpre : ∀ a ∈ pre, (mapAlert a).isOk = true)
    (hr : mapAlert r = .error e) :
    goAlerts (pre ++ r :: post) = (pre.map itemOf, some e) := by
  induction pre with
  | nil => simp [goAlerts, hr]
  | cons a rest ih =>
    obtain ⟨args, ha⟩ :=
      except_isOk_exists (hpre a (List.mem_cons_self a rest))
    have ih' := ih (fun b hb => hpre b (List.mem_cons_of_mem a hb))
    simp [goAlerts, ha, ih', itemOf, Except.toOption]

/-- C4: The `date` passed to `print_item` is `attributes.created_at`
parsed by `fromisoformat` and rendered by
`strftime('%m-%d-%Y %I:%M %p')`: 12-hour clock between 1 and 12,
two-digit zero-padded month/day/hour/minute, AM below noon and PM from
noon on; the spec's concrete example parses and renders as stated. -/
theorem C4_created_at_date_format (r : AlertRecord) (args : ItemArgs)
    (s : String) (dt : PyDatetime)
    (hc : dictGet r.attributes "created_at" = .ok (.str s))
    (hp : fromisoformat s = .ok dt)
    (hm : mapAlert r = .ok args) :
    args.date = strftime_mdY_IM_p dt ∧
    (1 ≤ hour12 dt.hour ∧ hour12 dt.hour ≤ 12) ∧
    (pad2 dt.month).length = 2 ∧ (pad2 dt.day).length = 2 ∧
    (pad2 (hour12 dt.hour)).length = 2 ∧ (pad2 dt.minute).length = 2 ∧
    (dt.hour < 12 → meridiem dt.hour = "AM") ∧
    (12 ≤ dt.hour → meridiem dt.hour = "PM") ∧
    fromisoformat "2021-03-05T14:30:00-05:00" =
      .ok ⟨2021, 3, 5, 14, 30, 0, 0, some (-18000)⟩ ∧
    strftime_mdY_IM_p ⟨2021, 3, 5, 14, 30, 0, 0, some (-18000)⟩ =
      "03-05-2021 02:30 PM" := by
  obtain ⟨sh, lh, ca, dt', descV, effV, -, -, h3, h4, -, -, hargs⟩ :=
    mapAlert_ok_inv hm
  rw [hc] at h3
  obtain rfl : s = ca := JVal.str.inj (Except.ok.inj h3)
  rw [hp] at h4
  obtain rfl : dt = dt' := Except.ok.inj h4
  have hpad : ∀ n, n < 100 → (pad2 n).length = 2 := by decide
  obtain ⟨-, hmo, -, hday, hhr, hmin⟩ := fromisoformat_ranges hp
  have hh12 : 1 ≤ hour12 dt.hour ∧ hour12 dt.hour ≤ 12 := by
    unfold hour12; split <;> omega
  refine ⟨by rw [hargs], hh12, hpad _ (by omega), hpad _ (by omega),
    hpad _ (by omega), hpad _ (by omega), ?_, ?_, by rfl, by rfl⟩
  · intro hlt; simp [meridiem, hlt]
  · intro hge; simp [meridiem, Nat.not_lt.mpr hge]

/-- Witness for C4 at the sample record carrying the spec's example
timestamp. -/
theorem C4_witness :
    dictGet sampleRecordNulls.attributes "created_at" =
      .ok (.str "2021-03-05T14:30:00-05:00") ∧
    fromisoformat "2021-03-05T14:30:00-05:00" =
      .ok ⟨2021, 3, 5, 14, 30, 0, 0, some (-18000)⟩ ∧
    mapAlert sampleRecordNulls =
      .ok ((mapAlert sampleRecordNulls).toOption.getD default) ∧
    ((mapAlert sampleRecordNulls).toOption.getD default).date =
      strftime_mdY_IM_p ⟨2021, 3, 5, 14, 30, 0, 0, some (-18000)⟩ :=
  ⟨by rfl, by rfl, by rfl,
    (C4_created_at_date_format sampleRecordNulls
      ((mapAlert sampleRecordNulls).toOption.getD default)
      "2021-03-05T14:30:00-05:00" ⟨2021, 3, 5, 14, 30, 0, 0, some (-18000)⟩
      (by rfl) (by rfl) (by rfl)).1⟩

/-- C10: A record whose attributes dictionary lacks the `description`
(or, with `description` present, the `effect`) key makes `get_alerts`
raise a `KeyError` and stop before calling `print_item` for that record;
only an explicit null is absorbed into the empty-string default. -/
theorem C10_missing_key_raises :
    (∀ r (sh lh ca : String) dt,
      dictGet r.attributes "short_header" = .ok (.str sh) →
      dictGet r.attributes "header" = .ok (.str lh) →
      dictGet r.attributes "created_at" = .ok (.str ca) →
      fromisoformat ca = .ok dt →
      r.attributes.find? (fun p => p.1 == "description") = none →
      mapAlert r = .error ("KeyError: " ++ "description")) ∧
    (∀ r (sh lh ca : String) dt dv,
      dictGet r.attributes "short_header" = .ok (.str sh) →
      dictGet r.attributes "header" = .ok (.str lh) →
      dictGet r.attributes "created_at" = .ok (.str ca) →
      fromisoformat ca = .ok dt →
      dictGet r.attributes "description" = .ok dv →
      r.attributes.find? (fun p => p.1 == "effect") = none →
      mapAlert r = .error ("KeyError: " ++ "effect")) ∧
    (∀ pre r post (e : String), (∀ a ∈ pre, (mapAlert a).isOk = true) →
      mapAlert r = .error e →
      getAlertsTrace (pre ++ r :: post) =
        (DriverCall.start :: pre.map itemOf, some e)) ∧
    (∀ r args, dictGet r.attributes "description" = .ok .null →
      mapAlert r = .ok args → args.desc = "") ∧
    (∀ r args, dictGet r.attributes "effect" = .ok .null →
      mapAlert r = .ok args → args.effect = "") := by
  refine ⟨?_, ?_, ?_, ?_, ?_⟩
  · intro r sh lh ca dt h1 h2 h3 h4 h5
    have h5' : dictGet r.attributes "description" =
        .error ("KeyError: " ++ "description") := by
      simp [dictGet, h5]
    simp [mapAlert, h1, h2, h3, h4, h5', jstr, bind, Except.bind]
  · intro r sh lh ca dt dv h1 h2 h3 h4 h5 h6
    have h6' : dictGet r.attributes "effect" =
        .error ("KeyError: " ++ "effect") := by
      simp [dictGet, h6]
    simp [mapAlert, h1, h2, h3, h4, h5, h6', jstr, bind, Except.bind]
  · intro pre r post e hpre hr
    simp [getAlertsTrace, goAlerts_error pre r post e hpre hr]
  · intro r args h5 hm
    obtain ⟨sh, lh, ca, dt, descV, effV, -, -, -, -, h5', -, hargs⟩ :=
      mapAlert_ok_inv hm
    rw [h5] at h5'
    obtain rfl : JVal.null = descV := Except.ok.inj h5'
    rw [hargs]
  · intro r args h6 hm
    obtain ⟨sh, lh, ca, dt, descV, effV, -, -, -, -, -, h6', hargs⟩ :=
      mapAlert_ok_inv hm
    rw [h6] at h6'
    obtain rfl : JVal.null = effV := Except.ok.inj h6'
    rw [hargs]

/-- Witness for C10 at a record lacking the `description` key. -/
theorem C10_witness :
    dictGet sampleRecordNoDescKey.attributes "short_header" =
      .ok (.str "Stop move") ∧
    sampleRecordNoDescKey.attributes.find?
      (fun p => p.1 == "description") = none ∧
    mapAlert sampleRecordNoDescKey =
      .error ("KeyError: " ++ "description") ∧
    getAlertsTrace [sampleRecordNulls, sampleRecordNoDescKey] =
      (DriverCall.start :: [sampleRecordNulls].map itemOf,
        some ("KeyError: " ++ "description")) := by
  have h1 := (C10_missing_key_raises).1 sampleRecordNoDescKey
    "Stop move" "A bus stop has moved" "2021-07-01T08:00:00-04:00"
    ⟨2021, 7, 1, 8, 0, 0, 0, some (-14400)⟩
    (by rfl) (by rfl) (by rfl) (by rfl) (by rfl)
  have h2 := (C10_missing_key_raises).2.2.1 [sampleRecordNulls]
    sampleRecordNoDescKey [] ("KeyError: " ++ "description")
    (by decide) h1
  exact ⟨by rfl, by rfl, h1, h2⟩

/-! ## A toolkit for substring (infix) reasoning

Used to settle the claims about escaping and about strings that must not
appear in rendered output: an occurrence of a pattern in `a ++ b` lies in
`a`, lies in `b`, or straddles the boundary. -/

theorem infix_append_split {p a b : List Char} (h : p <:+: a ++ b) :
    p <:+: a ∨ p <:+: b ∨
      ∃ s t, p = s ++ t ∧ s ≠ [] ∧ t ≠ [] ∧ s <:+ a ∧ t <+: b := by
  obtain ⟨u, v, huv⟩ := h
  rcases List.append_eq_append_iff.mp huv with ⟨w, hw1, hw2⟩ | ⟨w, hw1, hw2⟩
  · -- a = (u ++ p) ++ w : the pattern lies in a
    exact Or.inl ⟨u, w, by rw [hw1]⟩
  · -- u ++ p = a ++ w and b = w ++ v
    rcases List.append_eq_append_iff.mp hw1 with ⟨z, hz1, hz2⟩ | ⟨z, hz1, hz2⟩
    · -- a = u ++ z and p = z ++ w
      rcases eq_or_ne z [] with rfl | hzne
      · -- p = w is a prefix of b
        refine Or.inr (Or.inl ?_)
        refine ⟨[], v, ?_⟩
        simp [hz2, hw2]
      · rcases eq_or_ne w [] with rfl | hwne
        · -- p = z is a suffix of a
          refine Or.inl ⟨u, [], ?_⟩
          simp [hz1, hz2]
        · exact Or.inr (Or.inr ⟨z, w, hz2, hzne, hwne,
            ⟨u, hz1.symm⟩, ⟨v, hw2.symm⟩⟩)
    · -- u = a ++ z and w = z ++ p : the pattern lies in b
      refine Or.inr (Or.inl ⟨z, v, ?_⟩)
      rw [hw2, hz2]

theorem not_infix_append_of_no_straddle {p a b : List Char}
    (ha : ¬ p <:+: a) (hb : ¬ p <:+: b)
    (hstr : ∀ s t, p = s ++ t → s ≠ [] → t ≠ [] → ¬(s <:+ a ∧ t <+: b)) :
    ¬ p <:+: a ++ b := by
  intro h
  rcases infix_append_split h with h | h | ⟨s, t, hp, hs, ht, hsa, htb⟩
  · exact ha h
  · exact hb h
  · exact hstr s t hp hs ht ⟨hsa, htb⟩

/-- No occurrence can straddle out of `a` when `a` does not contain the
pattern's first character. -/
theorem not_infix_append_left {p a b : List Char} (hne : p ≠ [])
    (ha : ¬ p <:+: a) (hb : ¬ p <:+: b)
    (hhd : ∀ x, p.head? = some x → x ∉ a) : ¬ p <:+: a ++ b := by
  refine not_infix_append_of_no_straddle ha hb ?_
  rintro s t hp hs - ⟨hsa, -⟩
  rcases s with _ | ⟨s0, s'⟩
  · exact hs rfl
  · subst hp
    exact hhd s0 rfl (hsa.subset (List.mem_cons_self s0 s'))

/-- No occurrence can straddle into `b` when `b` starts with a character
the pattern does not contain. -/
theorem not_infix_append_right {p a b : List Char}
    (ha : ¬ p <:+: a) (hb : ¬ p <:+: b)
    (hhd : ∀ x, b.head? = some x → x ∉ p) : ¬ p <:+: a ++ b := by
  refine not_infix_append_of_no_straddle ha hb ?_
  rintro s t hp hs ht ⟨-, htb⟩
  rcases t with _ | ⟨t0, t'⟩
  · exact ht rfl
  · obtain ⟨r, hr⟩ := htb
    refine hhd t0 ?_ ?_
    · rw [← hr, List.head?_append_of_ne_nil _ (by simp)]
      rfl
    · subst hp
      exact List.mem_append_right s (List.mem_cons_self t0 t')

/-- Head guard for the common shape `b = lit ++ rest` with a nonempty
literal whose first character the pattern avoids. -/
theorem head_guard {p L : List Char} (hL : L ≠ [])
    (h : ∀ x, L.head? = some x → x ∉ p) :
    ∀ (R : List Char) (x : Char), (L ++ R).head? = some x → x ∉ p := by
  intro R x hx
  rw [List.head?_append_of_ne_nil _ hL] at hx
  exact h x hx

theorem infix_singleton {p : List Char} {c : Char} (h : p <:+: [c])
    (hne : p ≠ []) : p = [c] := by
  rcases p with _ | ⟨x, q⟩
  · exact absurd rfl hne
  · rcases q with _ | ⟨y, q'⟩
    · have hx : x ∈ [c] := h.subset (List.mem_cons_self x [])
      simp at hx
      subst hx
      rfl
    · exfalso
      have := h.length_le
      simp at this

theorem suffix_singleton {s : List Char} {c : Char} (h : s <:+ [c])
    (hne : s ≠ []) : s = [c] :=
  infix_singleton h.isInfix hne

/-! ## Transparency of character-wise replacements

Both `html.escape` and the Markdown newline doubling are character-wise
flat maps.  A pattern that cannot start inside a replacement block and
cannot extend into one occurs in the output only where it occurs in the
input. -/

/-- Every block of `f` is either the identity on its character or a
nonempty block that the pattern `p` can neither start in (its first
character is not in the block) nor extend into (the block's first
character is not in `p`). -/
def blockOk (p : List Char) (f : Char → List Char) : Prop :=
  ∀ c, f c = [c] ∨
    (f c ≠ [] ∧ (∀ x, p.head? = some x → x ∉ f c) ∧
      (∀ x, (f c).head? = some x → x ∉ p))

theorem prefix_flatMap {f : Char → List Char} {p : List Char}
    (hf : blockOk p f) :
    ∀ (l q : List Char), (∀ x ∈ q, x ∈ p) → q <+: l.flatMap f → q <+: l := by
  intro l
  induction l with
  | nil =>
    intro q _ h
    simpa using h
  | cons c l ih =>
    intro q hq h
    rw [List.flatMap_cons] at h
    rcases hf c with hc | ⟨hb, -, h3⟩
    · rw [hc] at h
      rcases q with _ | ⟨q0, q'⟩
      · exact List.nil_prefix
      · obtain ⟨r, hr⟩ := h
        rw [List.cons_append, List.singleton_append] at hr
        injection hr with hq0 hrest
        subst hq0
        obtain ⟨r', hr'⟩ := ih q' (fun x hx => hq x (List.mem_cons_of_mem _ hx))
          ⟨r, hrest⟩
        exact ⟨r', by rw [List.cons_append, hr']⟩
    · rcases q with _ | ⟨q0, q'⟩
      · exact List.nil_prefix
      · exfalso
        rcases hfc : f c with _ | ⟨b0, brest⟩
        · exact hb hfc
        · obtain ⟨r, hr⟩ := h
          rw [hfc, List.cons_append, List.cons_append] at hr
          injection hr with hq0 hr2
          refine h3 b0 (by rw [hfc]; rfl) ?_
          rw [← hq0]
          exact hq q0 (List.mem_cons_self q0 q')

theorem infix_flatMap {f : Char → List Char} {p : List Char}
    (hf : blockOk p f) (hne : p ≠ []) :
    ∀ l, p <:+: l.flatMap f → p <:+: l := by
  intro l
  induction l with
  | nil =>
    intro h
    simp at h
    exact absurd h hne
  | cons c l ih =>
    intro h
    rw [List.flatMap_cons] at h
    rcases infix_append_split h with h | h | ⟨s, t, hp, hs, ht, hsc, htl⟩
    · rcases hf c with hc | ⟨-, h2, -⟩
      · rw [hc] at h
        rw [infix_singleton h hne]
        exact (List.prefix_append [c] l).isInfix
      · exfalso
        rcases p with _ | ⟨p0, p'⟩
        · exact hne rfl
        · exact h2 p0 rfl (h.subset (List.mem_cons_self p0 p'))
    · exact List.infix_cons (ih h)
    · rcases hf c with hc | ⟨-, h2, -⟩
      · rw [hc] at hsc
        rw [suffix_singleton hsc hs] at hp
        rw [List.singleton_append] at hp
        subst hp
        have htsub : ∀ x ∈ t, x ∈ c :: t :=
          fun x hx => List.mem_cons_of_mem _ hx
        obtain ⟨r, hr⟩ := prefix_flatMap hf l t htsub htl
        exact (show (c :: t) <+: (c :: l) from
          ⟨r, by rw [List.cons_append, hr]⟩).isInfix
      · exfalso
        rcases s with _ | ⟨s0, s'⟩
        · exact hs rfl
        · subst hp
          exact h2 s0 rfl (hsc.subset (List.mem_cons_self s0 s'))

/-! ## The escape alphabet -/

/-- The per-character effect of CPython's `html.escape`: each of the five
special characters becomes its entity, every other character is kept. -/
def escChar (c : Char) : List Char :=
  if c = '&' then "&amp;".data
  else if c = '<' then "&lt;".data
  else if c = '>' then "&gt;".data
  else if c = '"' then "&quot;".data
  else if c = '\'' then "&#x27;".data
  else [c]

/-- The per-character effect of `desc.replace('\n', '\n\n')`. -/
def nlChar (c : Char) : List Char :=
  if c = '\n' then ['\n', '\n'] else [c]

theorem replaceNewlines_data (s : String) :
    (replaceNewlines s).data = s.data.flatMap nlChar := rfl

theorem pyReplaceChar_append (a b : List Char) (old : Char)
    (new : List Char) :
    pyReplaceChar (a ++ b) old new =
      pyReplaceChar a old new ++ pyReplaceChar b old new := by
  simp [pyReplaceChar]

/-- The five sequential replaces of `html.escape` fuse into the single
character-wise map `escChar`. -/
theorem html_escape_data (s : String) :
    (html_escape s).data = s.data.flatMap escChar := by
  show pyReplaceChar (pyReplaceChar (pyReplaceChar (pyReplaceChar
      (pyReplaceChar s.data '&' "&amp;".data) '<' "&lt;".data)
      '>' "&gt;".data) '"' "&quot;".data) '\'' "&#x27;".data =
    s.data.flatMap escChar
  induction s.data with
  | nil => rfl
  | cons c l ih =>
    rw [← List.singleton_append]
    simp only [pyReplaceChar_append, List.flatMap_append, ih]
    congr 1
    by_cases h1 : c = '&'
    · subst h1; rfl
    by_cases h2 : c = '<'
    · subst h2; rfl
    by_cases h3 : c = '>'
    · subst h3; rfl
    by_cases h4 : c = '"'
    · subst h4; rfl
    by_cases h5 : c = '\''
    · subst h5; rfl
    simp [pyReplaceChar, escChar, h1, h2, h3, h4, h5]

/-- `Escaped l`: the character list decomposes into plain characters
(none of `&`, `<`, `>`, `"`, `'`) and the five HTML entities; i.e. it
contains only escaped entities and no raw special character. -/
inductive Escaped : List Char → Prop where
  | nil : Escaped []
  | plain (c : Char) (l : List Char) (h1 : c ≠ '&') (h2 : c ≠ '<')
      (h3 : c ≠ '>') (h4 : c ≠ '"') (h5 : c ≠ '\'') :
      Escaped l → Escaped (c :: l)
  | amp (l : List Char) :
      Escaped l → Escaped ('&' :: 'a' :: 'm' :: 'p' :: ';' :: l)
  | lt (l : List Char) :
      Escaped l → Escaped ('&' :: 'l' :: 't' :: ';' :: l)
  | gt (l : List Char) :
      Escaped l → Escaped ('&' :: 'g' :: 't' :: ';' :: l)
  | quot (l : List Char) :
      Escaped l → Escaped ('&' :: 'q' :: 'u' :: 'o' :: 't' :: ';' :: l)
  | apos (l : List Char) :
      Escaped l → Escaped ('&' :: '#' :: 'x' :: '2' :: '7' :: ';' :: l)

theorem Escaped.append_escChar (c : Char) {l : List Char} (h : Escaped l) :
    Escaped (escChar c ++ l) := by
  by_cases h1 : c = '&'
  · subst h1; exact Escaped.amp l h
  by_cases h2 : c = '<'
  · subst h2; exact Escaped.lt l h
  by_cases h3 : c = '>'
  · subst h3; exact Escaped.gt l h
  by_cases h4 : c = '"'
  · subst h4; exact Escaped.quot l h
  by_cases h5 : c = '\''
  · subst h5; exact Escaped.apos l h
  have : escChar c = [c] := by simp [escChar, h1, h2, h3, h4, h5]
  rw [this]
  exact Escaped.plain c l h1 h2 h3 h4 h5 h

/-- `html.escape` output contains only escaped entities. -/
theorem escaped_html_escape (s : String) : Escaped (html_escape s).data := by
  rw [html_escape_data]
  induction s.data with
  | nil => exact Escaped.nil
  | cons c l ih =>
    rw [List.flatMap_cons]
    exact Escaped.append_escChar c ih

theorem Escaped.no_raw_char {l : List Char} (h : Escaped l) (x : Char)
    (hx1 : x = '&' ∨ x = '<' ∨ x = '>' ∨ x = '"' ∨ x = '\'') (hamp : x ≠ '&') :
    x ∉ l := by
  induction h with
  | nil => simp
  | plain c l h1 h2 h3 h4 h5 hE ih =>
    intro hmem
    rcases List.mem_cons.mp hmem with hx | hx
    · subst hx
      rcases hx1 with rfl | rfl | rfl | rfl | rfl
      · exact hamp rfl
      · exact h2 rfl
      · exact h3 rfl
      · exact h4 rfl
      · exact h5 rfl
    · exact ih hx
  | amp l hE ih =>
    intro hmem
    rcases hx1 with rfl | rfl | rfl | rfl | rfl
    · exact absurd rfl hamp
    · simp at hmem; exact ih hmem
    · simp at hmem; exact ih hmem
    · simp at hmem; exact ih hmem
    · simp at hmem; exact ih hmem
  | lt l hE ih =>
    intro hmem
    rcases hx1 with rfl | rfl | rfl | rfl | rfl
    · exact absurd rfl hamp
    · simp at hmem; exact ih hmem
    · simp at hmem; exact ih hmem
    · simp at hmem; exact ih hmem
    · simp at hmem; exact ih hmem
  | gt l hE ih =>
    intro hmem
    rcases hx1 with rfl | rfl | rfl | rfl | rfl
    · exact absurd rfl hamp
    · simp at hmem; exact ih hmem
    · simp at hmem; exact ih hmem
    · simp at hmem; exact ih hmem
    · simp at hmem; exact ih hmem
  | quot l hE ih =>
    intro hmem
    rcases hx1 with rfl | rfl | rfl | rfl | rfl
    · exact absurd rfl hamp
    · simp at hmem; exact ih hmem
    · simp at hmem; exact ih hmem
    · simp at hmem; exact ih hmem
    · simp at hmem; exact ih hmem
  | apos l hE ih =>
    intro hmem
    rcases hx1 with rfl | rfl | rfl | rfl | rfl
    · exact absurd rfl hamp
    · simp at hmem; exact ih hmem
    · simp at hmem; exact ih hmem
    · simp at hmem; exact ih hmem
    · simp at hmem; exact ih hmem

theorem Escaped.no_raw_lt {l : List Char} (h : Escaped l) : '<' ∉ l :=
  h.no_raw_char '<' (by decide) (by decide)

theorem Escaped.no_raw_gt {l : List Char} (h : Escaped l) : '>' ∉ l :=
  h.no_raw_char '>' (by decide) (by decide)

theorem Escaped.no_raw_quot {l : List Char} (h : Escaped l) : '"' ∉ l :=
  h.no_raw_char '"' (by decide) (by decide)

set_option maxRecDepth 8192 in
/-- C2 fails as stated: category elements are embedded verbatim.  With
the single category `"<&"` the emitted item carries the raw text
`<category><&</category>`, and the escaped form of that element does not
occur in the output. -/
theorem C2_counterexample :
    (RSSAlertDriver.mk "t" "d" "l" "u").print_item "h" "" "" "" "" ["<&"] "" =
      "<item>\n<title>h</title>\n<description><pre>\n\n</pre></description>\n<pubDate></pubDate>\n<guid></guid>\n<category><&</category>\n</item>\n" ∧
    html_escape "<&" = "&lt;&amp;" ∧
    ¬ ("<category>" ++ html_escape "<&" ++ "</category>").data <:+:
      ((RSSAlertDriver.mk "t" "d" "l" "u").print_item
        "h" "" "" "" "" ["<&"] "").data :=
  ⟨by decide, by rfl, by decide⟩

/-- C2 (amended): the RSS driver's `print_item` HTML-escapes `header`,
`long_header` and `description` before embedding — the `<title>` element
holds exactly `html_escape header`, which consists only of escaped
entities and contains no raw `<`, `>` or `"` — while each category
element (like `date` and `guid`) embeds its text verbatim. -/
theorem C2_rss_print_item_escaping (self : RSSAlertDriver)
    (header long_header desc effect date : String)
    (categories : List String) (guid : String) :
    self.print_item header long_header desc effect date categories guid =
      "<item>" ++ "\n" ++
      "<title>" ++ html_escape header ++ "</title>" ++ "\n" ++
      "<description>" ++ "<pre>" ++ html_escape long_header ++ "\n\n" ++
        html_escape desc ++ "</pre>" ++ "</description>" ++ "\n" ++
      "<pubDate>" ++ date ++ "</pubDate>" ++ "\n" ++
      "<guid>" ++ guid ++ "</guid>" ++ "\n" ++
      String.join (categories.map (fun category =>
        "<category>" ++ category ++ "</category>" ++ "\n")) ++
      "</item>" ++ "\n" ∧
    Escaped (html_escape header).data ∧
    Escaped (html_escape long_header).data ∧
    Escaped (html_escape desc).data ∧
    '<' ∉ (html_escape header).data ∧
    '>' ∉ (html_escape header).data ∧
    '"' ∉ (html_escape header).data := by
  refine ⟨?_, escaped_html_escape header, escaped_html_escape long_header,
    escaped_html_escape desc, (escaped_html_escape header).no_raw_lt,
    (escaped_html_escape header).no_raw_gt,
    (escaped_html_escape header).no_raw_quot⟩
  apply String.ext
  simp [RSSAlertDriver.print_item, pyPrint, String.data_append,
    List.append_assoc]

/-! ## Pattern-exclusion helpers for the rendered items -/

theorem mem_of_head?_eq {x : Char} {l : List Char} (h : l.head? = some x) :
    x ∈ l := by
  cases l with
  | nil => cases h
  | cons a l =>
    injection h with h
    subst h
    exact List.mem_cons_self a l

theorem not_infix_cons {p : List Char} {c : Char} {b : List Char}
    (hne : p ≠ []) (hb : ¬ p <:+: b)
    (hhd : ∀ x, p.head? = some x → x ≠ c) : ¬ p <:+: c :: b := by
  intro h
  rw [← List.singleton_append] at h
  rcases infix_append_split h with h | h | ⟨s, t, hp, hs, ht, hsa, htb⟩
  · have := infix_singleton h hne
    rcases p with _ | ⟨p0, p'⟩
    · exact hne rfl
    · injection this with h1 h2
      exact hhd p0 rfl h1
  · exact hb h
  · rw [suffix_singleton hsa hs] at hp
    rcases p with _ | ⟨p0, p'⟩
    · exact hne rfl
    · rw [List.singleton_append] at hp
      injection hp with h1 h2
      exact hhd p0 rfl h1

theorem head_guard_cons {p : List Char} {c : Char} {R : List Char}
    (h : c ∉ p) : ∀ x, (c :: R).head? = some x → x ∉ p := by
  intro x hx
  injection hx with hx
  subst hx
  exact h

/-- In the Markdown heading the header is followed by `" (added "`: an
occurrence of `"Effect: "` straddling that boundary forces the header to
end in `"Effect:"`. -/
theorem effect_no_straddle_space {a b : List Char}
    (hb : b.head? = some ' ') (hsuf : ¬ "Effect:".data <:+ a) :
    ∀ s t, "Effect: ".data = s ++ t → s ≠ [] → t ≠ [] →
      ¬(s <:+ a ∧ t <+: b) := by
  rintro s t hst hs ht ⟨hsa, htb⟩
  have hthead : t.head? = some ' ' := by
    obtain ⟨r, hr⟩ := htb
    rw [← hr, List.head?_append_of_ne_nil _ ht] at hb
    exact hb
  have hteq : t = "Effect: ".data.drop s.length := by
    rw [hst, List.drop_left]
  have hget : "Effect: ".data[s.length]? = some ' ' := by
    rw [← List.head?_drop, ← hteq]
    exact hthead
  have hslen : s.length < 8 := by
    by_contra hgt
    push_neg at hgt
    refine ht ?_
    rw [hteq]
    exact List.drop_eq_nil_of_le (by exact le_trans (by decide) hgt)
  have key : ∀ k, k < 8 → "Effect: ".data[k]? = some ' ' → k = 7 := by
    decide
  have h7 := key s.length hslen hget
  have hseq : s = "Effect:".data := by
    have hsv : s = "Effect: ".data.take s.length := by
      rw [hst, List.take_left]
    rw [hsv, h7]
    decide
  exact hsuf (hseq ▸ hsa)

theorem blockOk_escChar {p : List Char} (hamp : '&' ∉ p)
    (hhd : ∀ x, p.head? = some x →
      x ∉ "&amp;".data ∧ x ∉ "&lt;".data ∧ x ∉ "&gt;".data ∧
        x ∉ "&quot;".data ∧ x ∉ "&#x27;".data) :
    blockOk p escChar := by
  intro c
  by_cases h1 : c = '&'
  · subst h1
    refine Or.inr ⟨by decide, fun x hx => (hhd x hx).1, fun x hx => ?_⟩
    have hx' : some '&' = some x := hx
    cases hx'
    exact hamp
  by_cases h2 : c = '<'
  · subst h2
    refine Or.inr ⟨by decide, fun x hx => (hhd x hx).2.1, fun x hx => ?_⟩
    have hx' : some '&' = some x := hx
    cases hx'
    exact hamp
  by_cases h3 : c = '>'
  · subst h3
    refine Or.inr ⟨by decide, fun x hx => (hhd x hx).2.2.1, fun x hx => ?_⟩
    have hx' : some '&' = some x := hx
    cases hx'
    exact hamp
  by_cases h4 : c = '"'
  · subst h4
    refine Or.inr ⟨by decide, fun x hx => (hhd x hx).2.2.2.1, fun x hx => ?_⟩
    have hx' : some '&' = some x := hx
    cases hx'
    exact hamp
  by_cases h5 : c = '\''
  · subst h5
    refine Or.inr ⟨by decide, fun x hx => (hhd x hx).2.2.2.2, fun x hx => ?_⟩
    have hx' : some '&' = some x := hx
    cases hx'
    exact hamp
  exact Or.inl (by simp [escChar, h1, h2, h3, h4, h5])

theorem blockOk_nlChar {p : List Char} (hnl : '\n' ∉ p) : blockOk p nlChar := by
  intro c
  by_cases h : c = '\n'
  · subst h
    refine Or.inr ⟨by decide, fun x hx hmem => ?_, fun x hx => ?_⟩
    · have hx' : x ∈ ['\n', '\n'] := hmem
      simp at hx'
      subst hx'
      exact hnl (mem_of_head?_eq hx)
    · have hx' : some '\n' = some x := hx
      cases hx'
      exact hnl
  · exact Or.inl (by simp [nlChar, h])

theorem blockOk_effect_escChar : blockOk "Effect: ".data escChar := by
  refine blockOk_escChar (by decide) ?_
  intro x hx
  have hx' : some 'E' = some x := hx
  cases hx'
  decide

theorem blockOk_none_escChar : blockOk "None".data escChar := by
  refine blockOk_escChar (by decide) ?_
  intro x hx
  have hx' : some 'N' = some x := hx
  cases hx'
  decide

theorem blockOk_effect_nlChar : blockOk "Effect: ".data nlChar :=
  blockOk_nlChar (by decide)

/-- A pattern avoiding entity starts occurs in escaped text only if it
occurs in the source text. -/
theorem not_infix_html_escape {p : List Char} (hbo : blockOk p escChar)
    (hne : p ≠ []) {s : String} (h : ¬ p <:+: s.data) :
    ¬ p <:+: (html_escape s).data := by
  intro hx
  rw [html_escape_data] at hx
  exact h (infix_flatMap hbo hne s.data hx)

theorem not_infix_replaceNewlines {p : List Char} (hbo : blockOk p nlChar)
    (hne : p ≠ []) {s : String} (h : ¬ p <:+: s.data) :
    ¬ p <:+: (replaceNewlines s).data := by
  intro hx
  rw [replaceNewlines_data] at hx
  exact h (infix_flatMap hbo hne s.data hx)

theorem not_infix_append_left' {p0 : Char} {p' a b : List Char}
    (ha : ¬ (p0 :: p') <:+: a) (hb : ¬ (p0 :: p') <:+: b) (hhd : p0 ∉ a) :
    ¬ (p0 :: p') <:+: a ++ b :=
  not_infix_append_left (by simp) ha hb
    (fun x hx => by injection hx with hx; subst hx; exact hhd)

theorem not_infix_append_right' {p a : List Char} {c : Char}
    {b' rest : List Char} (ha : ¬ p <:+: a)
    (hb : ¬ p <:+: (c :: b') ++ rest) (hc : c ∉ p) :
    ¬ p <:+: a ++ ((c :: b') ++ rest) :=
  not_infix_append_right ha hb (fun x hx => by
    rw [List.cons_append] at hx
    injection hx with hx
    subst hx
    exact hc)

/-- The `<description>` element of an RSS item (the description portion
seen by feed readers), as `print_item` builds it. -/
def rssDescElem (lh d : String) : String :=
  "<description>" ++ ("<pre>" ++ html_escape lh ++ "\n\n" ++
    html_escape d ++ "</pre>") ++ "</description>" ++ "\n"

/-- A record whose `long_header` itself carries the word `None`. -/
def sampleRecordNone : AlertRecord :=
  ⟨"alertN",
    [("short_header", .str "SH"),
     ("header", .str "None stops here"),
     ("created_at", .str "2021-03-05T14:30:00-05:00"),
     ("description", .null),
     ("effect", .null)]⟩

/-- The argument bundle `mapAlert` produces for `sampleRecordNulls`. -/
def itemArgsNulls : ItemArgs :=
  ⟨"Shuttle", "Shuttle buses replace Red Line service", "", "",
    "03-05-2021 02:30 PM", [], "alert1"⟩

set_option maxRecDepth 8192 in
/-- C5 fails as stated: a long_header that itself contains `None` puts a
`None` literal into the description portion of an item whose
`description` and `effect` are null. -/
theorem C5_counterexample :
    dictGet sampleRecordNone.attributes "description" = .ok .null ∧
    dictGet sampleRecordNone.attributes "effect" = .ok .null ∧
    mapAlert sampleRecordNone = .ok
      ⟨"SH", "None stops here", "", "", "03-05-2021 02:30 PM", [],
        "alertN"⟩ ∧
    "None".data <:+: (rssDescElem "None stops here" "").data ∧
    "None".data <:+: ((Driver.ofRSS ⟨"t", "d", "l", "u"⟩).print_item
      ⟨"SH", "None stops here", "", "", "03-05-2021 02:30 PM", [],
        "alertN"⟩).data :=
  ⟨by rfl, by rfl, by rfl, by decide, by decide⟩

/-- C5 (amended): a null `description` is passed as `""` and the
description element then holds exactly the escaped `long_header` and a
blank line, so a `None` literal appears in it only if `long_header`
carries one; a null `effect` is passed as `""`, a non-null effect `e` as
`"Effect: " ++ e`; neither driver renders the effect argument, and
`"Effect: "` occurs in a rendered item only when another passed field
carries it (for the Markdown heading, also when the header ends in
`"Effect:"`, which the template's following space would complete). -/
theorem C5_null_description_effect (r : AlertRecord) (args : ItemArgs)
    (self : RSSAlertDriver) (mdself : MarkdownAlertDriver)
    (hm : mapAlert r = .ok args) :
    (dictGet r.attributes "description" = .ok .null → args.desc = "") ∧
    ((Driver.ofRSS self).print_item args =
      "<item>" ++ "\n" ++ "<title>" ++ html_escape args.header ++
        "</title>" ++ "\n" ++
      rssDescElem args.long_header args.desc ++
      "<pubDate>" ++ args.date ++ "</pubDate>" ++ "\n" ++
      "<guid>" ++ args.guid ++ "</guid>" ++ "\n" ++ "</item>" ++ "\n") ∧
    (dictGet r.attributes "description" = .ok .null →
      rssDescElem args.long_header args.desc =
        "<description>" ++ "<pre>" ++ html_escape args.long_header ++
          "\n\n" ++ "</pre>" ++ "</description>" ++ "\n" ∧
      (¬ "None".data <:+: args.long_header.data →
        ¬ "None".data <:+: (rssDescElem args.long_header args.desc).data)) ∧
    (dictGet r.attributes "effect" = .ok .null → args.effect = "") ∧
    (∀ e, dictGet r.attributes "effect" = .ok (.str e) →
      args.effect = "Effect: " ++ e) ∧
    (∀ e, (Driver.ofRSS self).print_item { args with effect := e } =
        (Driver.ofRSS self).print_item args ∧
      mdself.print_item args.header args.long_header args.desc e args.date
          args.categories args.guid =
        mdself.print_item args.header args.long_header args.desc args.effect
          args.date args.categories args.guid) ∧
    (¬ "Effect: ".data <:+: args.header.data →
      ¬ "Effect: ".data <:+: args.long_header.data →
      ¬ "Effect: ".data <:+: args.desc.data →
      ¬ "Effect: ".data <:+: args.date.data →
      ¬ "Effect: ".data <:+: args.guid.data →
      ¬ "Effect: ".data <:+: ((Driver.ofRSS self).print_item args).data) ∧
    (¬ "Effect: ".data <:+: args.header.data →
      ¬ "Effect:".data <:+ args.header.data →
      ¬ "Effect: ".data <:+: args.long_header.data →
      ¬ "Effect: ".data <:+: args.desc.data →
      ¬ "Effect: ".data <:+: args.date.data →
      ¬ "Effect: ".data <:+:
        (mdself.print_item args.header args.long_header args.desc
          args.effect args.date args.categories args.guid).data) := by
  obtain ⟨sh, lh, ca, dt, descV, effV, h1, h2, h3, h4, h5, h6, hargs⟩ :=
    mapAlert_ok_inv hm
  subst hargs
  have hne : ("Effect: ".data) ≠ [] := by decide
  have hnne : ("None".data) ≠ [] := by decide
  refine ⟨?_, ?_, ?_, ?_, ?_, ?_, ?_, ?_⟩
  · intro hdesc
    rw [h5] at hdesc
    obtain rfl : descV = JVal.null := Except.ok.inj hdesc
    rfl
  · apply String.ext
    simp [Driver.ofRSS, RSSAlertDriver.print_item, rssDescElem, pyPrint,
      String.data_append, List.append_assoc]
  · intro hdesc
    rw [h5] at hdesc
    obtain rfl : descV = JVal.null := Except.ok.inj hdesc
    constructor
    · apply String.ext
      simp [rssDescElem, String.data_append, List.append_assoc,
        show (html_escape "").data = [] from rfl]
    · intro hn
      have hElhN := not_infix_html_escape blockOk_none_escChar hnne hn
      simp only [rssDescElem, String.data_append, List.append_assoc,
        show (html_escape "").data = [] from rfl, List.nil_append]
      refine not_infix_append_left' (by decide) ?_ (by decide)
      refine not_infix_append_left' (by decide) ?_ (by decide)
      refine not_infix_append_right' hElhN ?_ (by decide)
      refine not_infix_append_left' (by decide) ?_ (by decide)
      refine not_infix_append_left' (by decide) ?_ (by decide)
      refine not_infix_append_left' (by decide) ?_ (by decide)
      decide
  · intro heff
    rw [h6] at heff
    obtain rfl : effV = JVal.null := Except.ok.inj heff
    rfl
  · intro e heff
    rw [h6] at heff
    obtain rfl : effV = JVal.str e := Except.ok.inj heff
    rfl
  · intro e
    exact ⟨rfl, rfl⟩
  · intro hH hLH hD hDate hG
    have hEsh := not_infix_html_escape blockOk_effect_escChar hne hH
    have hElh := not_infix_html_escape blockOk_effect_escChar hne hLH
    have hEd := not_infix_html_escape blockOk_effect_escChar hne hD
    simp only [Driver.ofRSS, RSSAlertDriver.print_item, pyPrint,
      String.data_append, List.append_assoc, List.map_nil, String.join,
      List.foldl_nil, List.nil_append]
    refine not_infix_append_left' (by decide) ?_ (by decide)
    refine not_infix_append_left' (by decide) ?_ (by decide)
    refine not_infix_append_left' (by decide) ?_ (by decide)
    refine not_infix_append_right' hEsh ?_ (by decide)
    refine not_infix_append_left' (by decide) ?_ (by decide)
    refine not_infix_append_left' (by decide) ?_ (by decide)
    refine not_infix_append_left' (by decide) ?_ (by decide)
    refine not_infix_append_left' (by decide) ?_ (by decide)
    refine not_infix_append_right' hElh ?_ (by decide)
    refine not_infix_append_left' (by decide) ?_ (by decide)
    refine not_infix_append_right' hEd ?_ (by decide)
    refine not_infix_append_left' (by decide) ?_ (by decide)
    refine not_infix_append_left' (by decide) ?_ (by decide)
    refine not_infix_append_left' (by decide) ?_ (by decide)
    refine not_infix_append_left' (by decide) ?_ (by decide)
    refine not_infix_append_right' hDate ?_ (by decide)
    refine not_infix_append_left' (by decide) ?_ (by decide)
    refine not_infix_append_left' (by decide) ?_ (by decide)
    refine not_infix_append_left' (by decide) ?_ (by decide)
    refine not_infix_append_right' hG ?_ (by decide)
    refine not_infix_append_left' (by decide) ?_ (by decide)
    refine not_infix_append_left' (by decide) ?_ (by decide)
    refine not_infix_append_left' (by decide) ?_ (by decide)
    decide
  · intro hH hHsuf hLH hD hDate
    have hRNd := not_infix_replaceNewlines blockOk_effect_nlChar hne hD
    simp only [MarkdownAlertDriver.print_item, pyPrint, String.data_append,
      List.append_assoc]
    refine not_infix_append_left' (by decide) ?_ (by decide)
    refine not_infix_append_of_no_straddle hH ?_
      (effect_no_straddle_space rfl hHsuf)
    refine not_infix_append_left' (by decide) ?_ (by decide)
    refine not_infix_append_right' hDate ?_ (by decide)
    refine not_infix_append_left' (by decide) ?_ (by decide)
    refine not_infix_append_left' (by decide) ?_ (by decide)
    refine not_infix_append_right' hLH ?_ (by decide)
    refine not_infix_append_left' (by decide) ?_ (by decide)
    refine not_infix_append_right' hRNd ?_ (by decide)
    refine not_infix_append_left' (by decide) ?_ (by decide)
    decide

/-- Witness for C5 (amended) at the all-null sample record. -/
theorem C5_witness :
    mapAlert sampleRecordNulls = .ok itemArgsNulls ∧
    itemArgsNulls.desc = "" ∧
    itemArgsNulls.effect = "" ∧
    ¬ "Effect: ".data <:+:
      ((Driver.ofRSS ⟨"t", "d", "l", "u"⟩).print_item itemArgsNulls).data ∧
    ¬ "Effect: ".data <:+:
      ((MarkdownAlertDriver.mk "t" "d" "l" "u").print_item
        itemArgsNulls.header itemArgsNulls.long_header itemArgsNulls.desc
        itemArgsNulls.effect itemArgsNulls.date itemArgsNulls.categories
        itemArgsNulls.guid).data := by
  have hm : mapAlert sampleRecordNulls = .ok itemArgsNulls := by rfl
  have H := C5_null_description_effect sampleRecordNulls itemArgsNulls
    ⟨"t", "d", "l", "u"⟩ (MarkdownAlertDriver.mk "t" "d" "l" "u") hm
  exact ⟨hm, H.1 (by rfl), H.2.2.2.1 (by rfl),
    H.2.2.2.2.2.2.1 (by decide) (by decide) (by decide) (by decide)
      (by decide),
    H.2.2.2.2.2.2.2 (by decide) (by decide) (by decide) (by decide)
      (by decide)⟩

end Mbta
